import Mathlib

/-
  Verification development for the subscription CRUD service
  (Go / Gin / GORM / PostgreSQL), shallowly embedded in Lean 4.

  Layers embedded, following the source:
  - `internal/model/subscription.go`  : the Subscription entity.
  - repository layer (`SubscriptionRepository`): the SQL statements each
    method issues, modelled over an in-memory list of rows.
  - service layer (`SubscriptionService`): parsing, validation, partial
    update and window computation, exactly as written in the source.
  - handler layer (`SubscriptionHandler`): status-code mapping per endpoint.
-/

/-- Model of `uuid.UUID` (external `github.com/google/uuid` library): an
opaque 128-bit value, embedded as a natural number. `uuid.Nil` is the zero
value. -/
abbrev UUID : Type := Nat

/-- `uuid.Nil`, the zero UUID; the zero value a failed `uuid.Parse` leaves
behind, and the sentinel the repository's `List` treats as "no user filter". -/
def nilUUID : UUID := (0 : Nat)

/-- Hexadecimal digit value, used by the model of `uuid.Parse`. -/
def hexVal (c : Char) : Option Nat :=
  if c.isDigit then some (c.toNat - 48)
  else if 'a' ≤ c && c ≤ 'f' then some (c.toNat - 87)
  else if 'A' ≤ c && c ≤ 'F' then some (c.toNat - 55)
  else none

/-- Helper for `uuidParse`: consumes characters at position `pos`,
accumulating the hex value; positions 8, 13, 18, 23 must hold hyphens. -/
def uuidParseAux : List Char → Nat → Nat → Option Nat
  | [], pos, acc => if pos = 36 then some acc else none
  | c :: rest, pos, acc =>
    if pos ≥ 36 then none
    else if pos = 8 || pos = 13 || pos = 18 || pos = 23 then
      if c = '-' then uuidParseAux rest (pos + 1) acc else none
    else
      match hexVal c with
      | some v => uuidParseAux rest (pos + 1) (acc * 16 + v)
      | none => none

/-- Model of `uuid.Parse` (external library) on the canonical
`xxxxxxxx-xxxx-xxxx-xxxx-xxxxxxxxxxxx` form used throughout this API:
36 characters, hyphens at positions 8, 13, 18 and 23, hex digits elsewhere.
Returns the 128-bit value; `none` on any malformed input. -/
def uuidParse (s : String) : Option UUID :=
  uuidParseAux s.data 0 0

/-- A parsed month-year, the result of the service's `parseMonthYear`. -/
structure Date where
  year : Nat
  month : Nat
deriving DecidableEq, Repr

/-- Value of a decimal digit character. -/
def digitVal (c : Char) : Nat := c.toNat - 48

/-- Embeds `parseMonthYear` (service layer): `time.Parse("01-2006", s)`.
The Go layout demands exactly two digits of month, a hyphen, exactly four
digits of year, with the whole string consumed, and `time.Parse` range-checks
the month to 1..12. The resulting `time.Time` is the first of that month at
00:00:00 UTC, obtained below via `monthStart`. -/
def parseMonthYear (s : String) : Option Date :=
  match s.data with
  | [m1, m2, '-', y1, y2, y3, y4] =>
    if m1.isDigit && m2.isDigit && y1.isDigit && y2.isDigit && y3.isDigit && y4.isDigit then
      let m := digitVal m1 * 10 + digitVal m2
      let y := digitVal y1 * 1000 + digitVal y2 * 100 + digitVal y3 * 10 + digitVal y4
      if 1 ≤ m && m ≤ 12 then some ⟨y, m⟩ else none
    else none
  | _ => none

/-- Model of Go `time.Time` restricted to normalized UTC calendar fields,
which is all the program ever constructs (via `time.Parse` and `time.Date`)
and compares (via `Before` and the SQL `<=` / `>=`). -/
structure DateTime where
  year : Nat
  month : Nat
  day : Nat
  hour : Nat
  minute : Nat
  second : Nat
deriving DecidableEq, Repr

/-- Injective key realising chronological order on normalized UTC
date-times (month < 13, day < 32, hour < 24, minute < 60, second < 60,
which holds for every value the program builds). -/
def DateTime.key (t : DateTime) : Nat :=
  ((((t.year * 13 + t.month) * 32 + t.day) * 24 + t.hour) * 60 + t.minute) * 60 + t.second

/-- `a ≤ b` on time values: the SQL comparisons `start_date <= ?` and
`end_date >= ?`. -/
def dle (a b : DateTime) : Bool := a.key ≤ b.key

/-- `a < b` on time values: Go's `a.Before(b)`. -/
def dlt (a b : DateTime) : Bool := a.key < b.key

/-- The `time.Time` produced by parsing `MM-YYYY`, and also the service's
`startPeriod = time.Date(y, m, 1, 0, 0, 0, 0, time.UTC)`. -/
def monthStart (d : Date) : DateTime := ⟨d.year, d.month, 1, 0, 0, 0⟩

/-- Gregorian leap-year rule, as normalized by Go's `time.Date`. -/
def isLeap (y : Nat) : Bool := y % 4 = 0 && (y % 100 ≠ 0 || y % 400 = 0)

/-- Number of days in month `m` of year `y` (m in 1..12). -/
def daysInMonth (y m : Nat) : Nat :=
  if m = 2 then (if isLeap y then 29 else 28)
  else if m = 4 || m = 6 || m = 9 || m = 11 then 30
  else 31

/-- The service's `endPeriod = time.Date(y, m+1, 0, 23, 59, 59, 0, time.UTC)`:
Go normalizes day 0 of month m+1 to the last day of month m (December
included: month 13 day 0 of year y normalizes to 31 December of y). -/
def monthEnd (d : Date) : DateTime :=
  ⟨d.year, d.month, daysInMonth d.year d.month, 23, 59, 59⟩

/-- `internal/model/subscription.go`: the Subscription entity.
`EndDate *time.Time` is nullable, hence `Option`. -/
structure Subscription where
  id : UUID
  serviceName : String
  price : Int
  userID : UUID
  startDate : DateTime
  endDate : Option DateTime
deriving DecidableEq, Repr

/-- The relational store the repository's SQL runs against: the rows of the
subscriptions table. -/
abbrev Store : Type := List Subscription

/-- Domain-error taxonomy actually produced by the service and repository
layers: the two wrapped parse failures, the `errors.New("end_date must be
after start_date")` range error, and `gorm.ErrRecordNotFound`. -/
inductive SvcErr where
  | invalidStartDate
  | invalidEndDate
  | invalidDateRange
  | recordNotFound
deriving DecidableEq, Repr

instance {e a : Type} [DecidableEq e] [DecidableEq a] : DecidableEq (Except e a) := fun x y =>
  match x, y with
  | .ok v, .ok w =>
    if h : v = w then isTrue (by rw [h]) else isFalse (by intro hc; injection hc; contradiction)
  | .error v, .error w =>
    if h : v = w then isTrue (by rw [h]) else isFalse (by intro hc; injection hc; contradiction)
  | .ok _, .error _ => isFalse (by intro hc; cases hc)
  | .error _, .ok _ => isFalse (by intro hc; cases hc)

/-- `SubscriptionRepository.Create`: `INSERT` of the row. -/
def repoCreate (db : Store) (sub : Subscription) : Store := db ++ [sub]

/-- `SubscriptionRepository.GetByID`: `First(&sub, "id = ?", id)`; gorm's
`First` yields `gorm.ErrRecordNotFound` when no row matches. -/
def repoGetByID (db : Store) (id : UUID) : Except SvcErr Subscription :=
  match List.find? (fun s => s.id = id) db with
  | some s => .ok s
  | none => .error .recordNotFound

/-- `SubscriptionRepository.Update`: `Save(sub)`, a full-row `UPDATE` keyed
on the primary key (the service only calls it with a freshly loaded row). -/
def repoUpdate (db : Store) (sub : Subscription) : Store :=
  List.map (fun s => if s.id = sub.id then sub else s) db

/-- `SubscriptionRepository.Delete`: `DELETE FROM subscriptions WHERE id = ?`.
A SQL DELETE matching zero rows succeeds; gorm's `Delete` reports only
database failures and never `gorm.ErrRecordNotFound`, so no error value
exists on this path. -/
def repoDelete (db : Store) (id : UUID) : Store :=
  List.filter (fun s => ¬ s.id = id) db

/-- `SubscriptionRepository.List`: conditional `WHERE user_id = ?` when the
filter is not `uuid.Nil`, conditional `WHERE service_name = ?` when not
empty. -/
def repoList (db : Store) (userID : UUID) (serviceName : String) : List Subscription :=
  List.filter (fun s =>
    (if userID = nilUUID then true else s.userID = userID) &&
    (if serviceName = "" then true else s.serviceName = serviceName)) db

/-- Row predicate of `SubscriptionRepository.Aggregate`'s query:
`start_date <= end AND (end_date >= start OR end_date IS NULL)` plus the two
optional equality filters (added when the pointers are non-nil). -/
def aggRowMatch (start stop : DateTime) (userID : Option UUID)
    (serviceName : Option String) (s : Subscription) : Bool :=
  dle s.startDate stop &&
  (match s.endDate with
   | some e => dle start e
   | none => true) &&
  (match userID with
   | some u => s.userID = u
   | none => true) &&
  (match serviceName with
   | some n => s.serviceName = n
   | none => true)

/-- `SubscriptionRepository.Aggregate`: `SELECT COALESCE(SUM(price), 0)`
over the rows matching `aggRowMatch`; the sum of no rows is 0. -/
def repoAggregate (db : Store) (start stop : DateTime) (userID : Option UUID)
    (serviceName : Option String) : Int :=
  (List.map (fun s => s.price) (List.filter (aggRowMatch start stop userID serviceName) db)).sum

/-- `SubscriptionService.Create`. `uuid.New()` is modelled by the `newID`
parameter. Start date is parsed (wrapped as "invalid start_date"); a
non-empty end date is parsed and rejected with the range error when
`ed.Before(startDate)`; the entity is then inserted via the repository. -/
def serviceCreate (db : Store) (newID : UUID) (serviceName : String) (price : Int)
    (userID : UUID) (startDateStr endDateStr : String) :
    Except SvcErr (Subscription × Store) :=
  match parseMonthYear startDateStr with
  | none => .error .invalidStartDate
  | some sd =>
    let startDate := monthStart sd
    let endRes : Except SvcErr (Option DateTime) :=
      if endDateStr = "" then .ok none
      else
        match parseMonthYear endDateStr with
        | none => .error .invalidEndDate
        | some ed =>
          if dlt (monthStart ed) startDate then .error .invalidDateRange
          else .ok (some (monthStart ed))
    match endRes with
    | .error e => .error e
    | .ok endDate =>
      let sub : Subscription :=
        ⟨newID, serviceName, price, userID, startDate, endDate⟩
      .ok (sub, repoCreate db sub)

/-- `SubscriptionService.GetByID`: pass-through to the repository. -/
def serviceGetByID (db : Store) (id : UUID) : Except SvcErr Subscription :=
  repoGetByID db id

/-- Update block `if serviceName != "" { sub.ServiceName = serviceName }`. -/
def applyServiceName (sub : Subscription) (serviceName : String) : Subscription :=
  if serviceName = "" then sub else { sub with serviceName := serviceName }

/-- Update block `if price > 0 { sub.Price = price }`. -/
def applyPrice (sub : Subscription) (price : Int) : Subscription :=
  if price > 0 then { sub with price := price } else sub

/-- Update block for `startDateStr`: parsed and assigned only when
non-empty; a parse failure aborts with "invalid start_date". -/
def applyStartDate (sub : Subscription) (startDateStr : String) :
    Except SvcErr Subscription :=
  if startDateStr = "" then .ok sub
  else
    match parseMonthYear startDateStr with
    | none => .error .invalidStartDate
    | some sd => .ok { sub with startDate := monthStart sd }

/-- Update block for `endDateStr`: when non-empty, parsed (failure aborts),
range-checked against the current — possibly just-updated — `sub.StartDate`,
then assigned; when empty, `sub.EndDate = nil` unconditionally. -/
def applyEndDate (sub : Subscription) (endDateStr : String) :
    Except SvcErr Subscription :=
  if endDateStr = "" then .ok { sub with endDate := none }
  else
    match parseMonthYear endDateStr with
    | none => .error .invalidEndDate
    | some ed =>
      if dlt (monthStart ed) sub.startDate then .error .invalidDateRange
      else .ok { sub with endDate := some (monthStart ed) }

/-- `SubscriptionService.Update`: load by id (propagating
`gorm.ErrRecordNotFound`), apply the four field blocks in source order,
persist the mutated row with `Save`. -/
def serviceUpdate (db : Store) (id : UUID) (serviceName : String) (price : Int)
    (startDateStr endDateStr : String) : Except SvcErr (Subscription × Store) :=
  match repoGetByID db id with
  | .error e => .error e
  | .ok sub0 =>
    match applyStartDate (applyPrice (applyServiceName sub0 serviceName) price) startDateStr with
    | .error e => .error e
    | .ok sub3 =>
      match applyEndDate sub3 endDateStr with
      | .error e => .error e
      | .ok sub4 => .ok (sub4, repoUpdate db sub4)

/-- `SubscriptionService.Delete`: pass-through to the repository, which
cannot report not-found (see `repoDelete`). -/
def serviceDelete (db : Store) (id : UUID) : Except SvcErr Store :=
  .ok (repoDelete db id)

/-- `SubscriptionService.List`: pass-through to the repository. -/
def serviceList (db : Store) (userID : UUID) (serviceName : String) :
    List Subscription :=
  repoList db userID serviceName

/-- `SubscriptionService.Aggregate`: parse both dates (wrapped failures),
expand to `startPeriod` / `endPeriod`, and delegate the sum; no ordering
check between the two dates. -/
def serviceAggregate (db : Store) (startDateStr endDateStr : String)
    (userID : Option UUID) (serviceName : Option String) : Except SvcErr Int :=
  match parseMonthYear startDateStr with
  | none => .error .invalidStartDate
  | some sd =>
    match parseMonthYear endDateStr with
    | none => .error .invalidEndDate
    | some ed =>
      .ok (repoAggregate db (monthStart sd) (monthEnd ed) userID serviceName)

/-- Outcome of one HTTP handler invocation: the status code written, and
whether the handler reached a call on `h.service` (true exactly on the code
paths that invoke the domain layer). -/
structure HandlerResult (α : Type) where
  status : Nat
  domainInvoked : Bool
  body : α
deriving DecidableEq, Repr

/-- `SubscriptionHandler.Create` after a successful JSON bind. The bind tags
(`binding:"required"` on service_name / user_id / start_date,
`binding:"required,gt=0"` on price) reject zero values with 400 before the
service is called; any service error is mapped to 400, success to 201. -/
def handlerCreate (db : Store) (newID : UUID) (serviceName : String) (price : Int)
    (userID : UUID) (startDateStr endDateStr : String) :
    HandlerResult (Option (Subscription × Store)) :=
  if serviceName = "" || price ≤ 0 || userID = nilUUID || startDateStr = "" then
    ⟨400, false, none⟩
  else
    match serviceCreate db newID serviceName price userID startDateStr endDateStr with
    | .error _ => ⟨400, true, none⟩
    | .ok r => ⟨201, true, some r⟩

/-- `SubscriptionHandler.GetByID`: 400 on an unparseable path id without
touching the service; otherwise 404 exactly on `gorm.ErrRecordNotFound`,
500 on any other service error, 200 with the entity on success. -/
def handlerGetByID (db : Store) (idParam : String) :
    HandlerResult (Option Subscription) :=
  match uuidParse idParam with
  | none => ⟨400, false, none⟩
  | some id =>
    match serviceGetByID db id with
    | .error e => if e = .recordNotFound then ⟨404, true, none⟩ else ⟨500, true, none⟩
    | .ok sub => ⟨200, true, some sub⟩

/-- `SubscriptionHandler.Update`: 400 on an unparseable path id without
touching the service; afterwards every service error — validation,
not-found and persistence alike — is written as 400 (no
`errors.Is(err, gorm.ErrRecordNotFound)` branch exists here), success as
200. -/
def handlerUpdate (db : Store) (idParam : String) (serviceName : String)
    (price : Int) (startDateStr endDateStr : String) :
    HandlerResult (Option (Subscription × Store)) :=
  match uuidParse idParam with
  | none => ⟨400, false, none⟩
  | some id =>
    match serviceUpdate db id serviceName price startDateStr endDateStr with
    | .error _ => ⟨400, true, none⟩
    | .ok r => ⟨200, true, some r⟩

/-- `SubscriptionHandler.Delete`: 400 on an unparseable path id without
touching the service; 404 exactly on `gorm.ErrRecordNotFound` (a branch the
repository's `Delete` can never feed), 500 on any other service error, 204
on success. The body is the store after the call. -/
def handlerDelete (db : Store) (idParam : String) : HandlerResult Store :=
  match uuidParse idParam with
  | none => ⟨400, false, db⟩
  | some id =>
    match serviceDelete db id with
    | .error e => if e = .recordNotFound then ⟨404, true, db⟩ else ⟨500, true, db⟩
    | .ok db2 => ⟨204, true, db2⟩

/-- `SubscriptionHandler.List`: `uuid.Parse` failure on the `user_id` query
parameter is only logged; the zero value `uuid.Nil` that the failed parse
leaves in `userID` is passed on, and the service is invoked regardless.
Success is 200 with the rows (the 500 branch exists only for database
failures, absent from this model). -/
def handlerList (db : Store) (userIDParam : String) (serviceName : String) :
    HandlerResult (List Subscription) :=
  let userID : UUID :=
    match uuidParse userIDParam with
    | some u => u
    | none => nilUUID
  ⟨200, true, serviceList db userID serviceName⟩

/-- `SubscriptionHandler.Aggregate` after a successful JSON bind
(`binding:"required"` on both date strings rejects empty ones with 400
before the service runs); every service error — including the date-parse
failures — is written as 500, success as 200 with the total. -/
def handlerAggregate (db : Store) (startDateStr endDateStr : String)
    (userID : Option UUID) (serviceName : Option String) :
    HandlerResult (Option Int) :=
  if startDateStr = "" || endDateStr = "" then ⟨400, false, none⟩
  else
    match serviceAggregate db startDateStr endDateStr userID serviceName with
    | .error _ => ⟨500, true, none⟩
    | .ok t => ⟨200, true, some t⟩

/-- The data-model invariant: `end_date`, if set, is not earlier than
`start_date`. -/
def invOK (s : Subscription) : Bool :=
  match s.endDate with
  | none => true
  | some e => dle s.startDate e

/-- Window-overlap condition as the specification words it: the
subscription's `[start_date, end_date-or-open]` intersects
`[windowStart, windowEnd]`, i.e. `start_date ≤ windowEnd` and
(`end_date ≥ windowStart` or `end_date` unset). -/
def overlapsWindow (wStart wEnd : DateTime) (s : Subscription) : Bool :=
  dle s.startDate wEnd &&
  (match s.endDate with
   | some e => dle wStart e
   | none => true)

/-- The optional `user_id` / `service_name` equality filters as the
specification words them. -/
def passesFilters (userID : Option UUID) (serviceName : Option String)
    (s : Subscription) : Bool :=
  (match userID with
   | some u => s.userID = u
   | none => true) &&
  (match serviceName with
   | some n => s.serviceName = n
   | none => true)

/-- Demo row: the specification's first scenario entity. -/
def demoSub : Subscription :=
  ⟨5, "Netflix", 1000, 7, ⟨2025, 7, 1, 0, 0, 0⟩, some ⟨2025, 10, 1, 0, 0, 0⟩⟩

/-- Demo row: the specification's open-ended scenario entity. -/
def demoSub2 : Subscription :=
  ⟨6, "Spotify", 500, 7, ⟨2025, 9, 1, 0, 0, 0⟩, none⟩

/-- Demo store holding both scenario rows. -/
def demoDb : Store := [demoSub, demoSub2]

lemma parseMonthYear_empty : parseMonthYear "" = none := rfl

lemma applyServiceName_id (sub : Subscription) (n : String) :
    (applyServiceName sub n).id = sub.id := by
  unfold applyServiceName; split <;> rfl

lemma applyPrice_id (sub : Subscription) (p : Int) :
    (applyPrice sub p).id = sub.id := by
  unfold applyPrice; split <;> rfl

lemma applyStartDate_ok (sub : Subscription) (s : String) (sub3 : Subscription)
    (h : applyStartDate sub s = .ok sub3) :
    sub3.id = sub.id ∧ sub3.serviceName = sub.serviceName ∧ sub3.price = sub.price := by
  unfold applyStartDate at h
  split at h
  · cases h; exact ⟨rfl, rfl, rfl⟩
  · revert h
    cases parseMonthYear s with
    | none => intro h; cases h
    | some sd => intro h; cases h; exact ⟨rfl, rfl, rfl⟩

lemma applyEndDate_ok (sub : Subscription) (e : String) (sub4 : Subscription)
    (h : applyEndDate sub e = .ok sub4) :
    sub4.id = sub.id ∧ sub4.serviceName = sub.serviceName ∧
    sub4.price = sub.price ∧ sub4.startDate = sub.startDate := by
  unfold applyEndDate at h
  split at h
  · cases h; exact ⟨rfl, rfl, rfl, rfl⟩
  · cases hp : parseMonthYear e with
    | none => simp only [hp] at h; cases h
    | some ed =>
      simp only [hp] at h
      split at h
      · cases h
      · cases h; exact ⟨rfl, rfl, rfl, rfl⟩

lemma applyEndDate_invOK (sub : Subscription) (e : String) (sub4 : Subscription)
    (h : applyEndDate sub e = .ok sub4) : invOK sub4 = true := by
  unfold applyEndDate at h
  split at h
  · cases h; rfl
  · cases hp : parseMonthYear e with
    | none => simp only [hp] at h; cases h
    | some ed =>
      simp only [hp] at h
      split at h
      · cases h
      · rename_i hlt
        cases h
        show (dle sub.startDate (monthStart ed)) = true
        unfold dlt at hlt
        unfold dle
        simp only [decide_eq_true_eq] at *
        omega

lemma repoGetByID_ok (db : Store) (id : UUID) (sub0 : Subscription)
    (h : repoGetByID db id = .ok sub0) : sub0 ∈ db ∧ sub0.id = id := by
  unfold repoGetByID at h
  revert h
  cases hf : List.find? (fun s => s.id = id) db with
  | none => intro h; cases h
  | some s =>
    intro h
    cases h
    refine ⟨List.mem_of_find?_eq_some hf, ?_⟩
    have := List.find?_some hf
    simpa using this

lemma mem_repoUpdate_self (db : Store) (sub s0 : Subscription)
    (h0 : s0 ∈ db) (hid : s0.id = sub.id) : sub ∈ repoUpdate db sub := by
  unfold repoUpdate
  exact List.mem_map.mpr ⟨s0, h0, by simp [hid]⟩

lemma serviceUpdate_ok (db : Store) (id : UUID) (svcName : String) (price : Int)
    (sStr eStr : String) (sub2 : Subscription) (db2 : Store)
    (h : serviceUpdate db id svcName price sStr eStr = .ok (sub2, db2)) :
    ∃ sub0 sub3, repoGetByID db id = .ok sub0 ∧
      applyStartDate (applyPrice (applyServiceName sub0 svcName) price) sStr = .ok sub3 ∧
      applyEndDate sub3 eStr = .ok sub2 ∧ db2 = repoUpdate db sub2 := by
  unfold serviceUpdate at h
  cases hg : repoGetByID db id with
  | error e => simp only [hg] at h; cases h
  | ok sub0 =>
    simp only [hg] at h
    cases hs : applyStartDate (applyPrice (applyServiceName sub0 svcName) price) sStr with
    | error e => simp only [hs] at h; cases h
    | ok sub3 =>
      simp only [hs] at h
      cases he : applyEndDate sub3 eStr with
      | error e => simp only [he] at h; cases h
      | ok sub4 =>
        simp only [he] at h
        cases h
        exact ⟨sub0, sub3, rfl, hs, he, rfl⟩

lemma applyServiceName_empty (sub : Subscription) : applyServiceName sub "" = sub := by
  unfold applyServiceName; simp

lemma applyPrice_nonpos (sub : Subscription) (p : Int) (h : p ≤ 0) :
    applyPrice sub p = sub := by
  unfold applyPrice; rw [if_neg (by omega)]

lemma applyStartDate_empty (sub : Subscription) : applyStartDate sub "" = .ok sub := by
  unfold applyStartDate; simp

lemma applyServiceName_frame (sub : Subscription) (n : String) :
    (applyServiceName sub n).price = sub.price ∧
    (applyServiceName sub n).startDate = sub.startDate := by
  unfold applyServiceName; split <;> exact ⟨rfl, rfl⟩

lemma applyPrice_frame (sub : Subscription) (p : Int) :
    (applyPrice sub p).serviceName = sub.serviceName ∧
    (applyPrice sub p).startDate = sub.startDate := by
  unfold applyPrice; split <;> exact ⟨rfl, rfl⟩

lemma parseMonthYear_ne_empty (s : String) (d : Date)
    (h : parseMonthYear s = some d) : s ≠ "" := by
  intro hc
  rw [hc, parseMonthYear_empty] at h
  cases h

/-- The subscription freshly updated from `demoSub` with its end date
cleared. -/
def demoUpdated : Subscription :=
  ⟨5, "Netflix", 1000, 7, ⟨2025, 7, 1, 0, 0, 0⟩, none⟩

/-- C2: for every existing subscription and every Update request whose
end-date text is empty, a successful Update leaves the stored entity
open-ended (`end_date` unset), regardless of the prior end date and of the
other supplied fields. -/
theorem update_empty_end_clears (db : Store) (id : UUID) (svcName : String)
    (price : Int) (sStr : String) (sub2 : Subscription) (db2 : Store)
    (h : serviceUpdate db id svcName price sStr "" = .ok (sub2, db2)) :
    sub2.endDate = none ∧ sub2 ∈ db2 := by
  obtain ⟨sub0, sub3, hg, hs, he, hdb2⟩ := serviceUpdate_ok _ _ _ _ _ _ _ _ h
  have hval : applyEndDate sub3 "" = .ok { sub3 with endDate := none } := by
    unfold applyEndDate; simp
  rw [hval] at he
  injection he with he2
  constructor
  · rw [← he2]
  · subst hdb2
    obtain ⟨hmem, hid0⟩ := repoGetByID_ok _ _ _ hg
    apply mem_repoUpdate_self db sub2 sub0 hmem
    have h3 : sub3.id = sub0.id := by
      rw [(applyStartDate_ok _ _ _ hs).1, applyPrice_id, applyServiceName_id]
    have h4 : sub2.id = sub3.id := by rw [← he2]
    rw [hid0, h4, h3, hid0]

/-- C2 witness: clearing the demo subscription's end date. -/
theorem update_empty_end_clears_witness :
    demoUpdated.endDate = none ∧ demoUpdated ∈ ([demoUpdated] : Store) :=
  update_empty_end_clears [demoSub] 5 "" 0 "" demoUpdated [demoUpdated] (by decide)

lemma serviceCreate_eval_empty (db : Store) (newID : UUID) (svcName : String)
    (price : Int) (uid : UUID) (sStr : String) (sd : Date)
    (hs : parseMonthYear sStr = some sd) :
    serviceCreate db newID svcName price uid sStr "" =
      .ok (⟨newID, svcName, price, uid, monthStart sd, none⟩,
        db ++ [⟨newID, svcName, price, uid, monthStart sd, none⟩]) := by
  unfold serviceCreate
  simp [hs, repoCreate]

lemma serviceCreate_eval_some (db : Store) (newID : UUID) (svcName : String)
    (price : Int) (uid : UUID) (sStr eStr : String) (sd ed : Date)
    (hs : parseMonthYear sStr = some sd) (he : parseMonthYear eStr = some ed)
    (hne : eStr ≠ "") :
    serviceCreate db newID svcName price uid sStr eStr =
      (if dlt (monthStart ed) (monthStart sd) then
        Except.error SvcErr.invalidDateRange
      else
        .ok (⟨newID, svcName, price, uid, monthStart sd, some (monthStart ed)⟩,
          db ++ [⟨newID, svcName, price, uid, monthStart sd, some (monthStart ed)⟩])) := by
  by_cases hc : dlt (monthStart ed) (monthStart sd) = true
  · simp [serviceCreate, hs, he, hne, hc, repoCreate]
  · rw [Bool.not_eq_true] at hc
    simp [serviceCreate, hs, he, hne, hc, repoCreate]

/-- C5: with parseable start and end dates, Create fails with the
date-range error exactly when the parsed end precedes the parsed start, and
otherwise succeeds and appends the new entity to the store; an empty
end-date text also succeeds, storing an open-ended entity. -/
theorem create_date_range_check (db : Store) (newID : UUID) (svcName : String)
    (price : Int) (uid : UUID) (sStr eStr : String) (sd : Date)
    (hs : parseMonthYear sStr = some sd) :
    (eStr = "" → ∃ sub, serviceCreate db newID svcName price uid sStr eStr =
        .ok (sub, db ++ [sub]) ∧ sub.endDate = none) ∧
    (∀ ed : Date, parseMonthYear eStr = some ed →
      ((serviceCreate db newID svcName price uid sStr eStr =
          .error .invalidDateRange) ↔ dlt (monthStart ed) (monthStart sd) = true) ∧
      (dlt (monthStart ed) (monthStart sd) = false →
        ∃ sub, serviceCreate db newID svcName price uid sStr eStr =
          .ok (sub, db ++ [sub]) ∧ sub.endDate = some (monthStart ed))) := by
  constructor
  · intro he
    subst he
    exact ⟨_, serviceCreate_eval_empty db newID svcName price uid sStr sd hs, rfl⟩
  · intro ed hed
    have hne : eStr ≠ "" := parseMonthYear_ne_empty _ _ hed
    rw [serviceCreate_eval_some db newID svcName price uid sStr eStr sd ed hs hed hne]
    constructor
    · by_cases hc : dlt (monthStart ed) (monthStart sd) = true
      · simp [hc]
      · rw [Bool.not_eq_true] at hc
        simp [hc]
    · intro hc
      simp [hc]

/-- C5 witness: end 07-2025 before start 10-2025 is rejected with the
range error. -/
theorem create_date_range_check_witness :
    serviceCreate [] 1 "Netflix" 1000 7 "10-2025" "07-2025" =
      .error .invalidDateRange :=
  ((create_date_range_check [] 1 "Netflix" 1000 7 "10-2025" "07-2025"
    ⟨2025, 10⟩ (by decide)).2 ⟨2025, 7⟩ (by decide)).1.mpr (by decide)

/-- C6: on a successful Update, the stored service name is unchanged when
the supplied one is empty, the price is unchanged when the supplied one is
not positive, and the start date is unchanged when the supplied text is
empty. -/
theorem update_frame_fields (db : Store) (id : UUID) (svcName : String)
    (price : Int) (sStr eStr : String) (sub0 sub2 : Subscription) (db2 : Store)
    (h0 : repoGetByID db id = .ok sub0)
    (h : serviceUpdate db id svcName price sStr eStr = .ok (sub2, db2)) :
    (svcName = "" → sub2.serviceName = sub0.serviceName) ∧
    (price ≤ 0 → sub2.price = sub0.price) ∧
    (sStr = "" → sub2.startDate = sub0.startDate) := by
  obtain ⟨sub0', sub3, hg, hs, he, hdb2⟩ := serviceUpdate_ok _ _ _ _ _ _ _ _ h
  rw [h0] at hg
  injection hg with hg0
  subst hg0
  have hE := applyEndDate_ok _ _ _ he
  refine ⟨?_, ?_, ?_⟩
  · intro hn
    subst hn
    rw [hE.2.1, (applyStartDate_ok _ _ _ hs).2.1, applyServiceName_empty]
    exact (applyPrice_frame sub0 price).1
  · intro hp
    rw [hE.2.2.1, (applyStartDate_ok _ _ _ hs).2.2, applyPrice_nonpos _ _ hp]
    exact (applyServiceName_frame sub0 svcName).1
  · intro hss
    subst hss
    rw [applyStartDate_empty] at hs
    injection hs with hs3
    rw [hE.2.2.2, ← hs3, (applyPrice_frame _ price).2]
    exact (applyServiceName_frame sub0 svcName).2

/-- C6 witness: empty/zero update fields leave the demo subscription's
service name, price and start date unchanged. -/
theorem update_frame_fields_witness :
    demoUpdated.serviceName = demoSub.serviceName ∧
    demoUpdated.price = demoSub.price ∧
    demoUpdated.startDate = demoSub.startDate := by
  obtain ⟨a, b, c⟩ := update_frame_fields [demoSub] 5 "" 0 "" ""
    demoSub demoUpdated [demoUpdated] (by decide) (by decide)
  exact ⟨a rfl, b (by decide), c rfl⟩

/-- C7: when Update is given non-empty, parseable start and end texts, the
date-range check compares the parsed end against the newly supplied start
(not the previously stored one): it fails with the range error exactly when
the parsed end precedes the parsed new start. -/
theorem update_range_uses_new_start (db : Store) (id : UUID) (svcName : String)
    (price : Int) (sStr eStr : String) (sub0 : Subscription) (sd ed : Date)
    (h0 : repoGetByID db id = .ok sub0)
    (hs : parseMonthYear sStr = some sd) (he : parseMonthYear eStr = some ed) :
    serviceUpdate db id svcName price sStr eStr = .error .invalidDateRange ↔
      dlt (monthStart ed) (monthStart sd) = true := by
  have hsne : sStr ≠ "" := parseMonthYear_ne_empty _ _ hs
  have hene : eStr ≠ "" := parseMonthYear_ne_empty _ _ he
  unfold serviceUpdate
  simp only [h0]
  have hstep : applyStartDate (applyPrice (applyServiceName sub0 svcName) price) sStr =
      .ok { applyPrice (applyServiceName sub0 svcName) price with startDate := monthStart sd } := by
    unfold applyStartDate; simp [hsne, hs]
  simp only [hstep]
  have hend : applyEndDate
      { applyPrice (applyServiceName sub0 svcName) price with startDate := monthStart sd } eStr =
      (if dlt (monthStart ed) (monthStart sd) then Except.error SvcErr.invalidDateRange
       else .ok { applyPrice (applyServiceName sub0 svcName) price with
                   startDate := monthStart sd, endDate := some (monthStart ed) }) := by
    unfold applyEndDate; simp [hene, he]
  rw [hend]
  by_cases hc : dlt (monthStart ed) (monthStart sd) = true
  · simp [hc]
  · rw [Bool.not_eq_true] at hc
    simp [hc]

/-- C7 witness: updating the demo subscription (stored start 07-2025) with
new start 09-2025 and end 08-2025 fails the range check even though 08-2025
follows the stored start. -/
theorem update_range_uses_new_start_witness :
    serviceUpdate [demoSub] 5 "" 0 "09-2025" "08-2025" =
      .error .invalidDateRange :=
  (update_range_uses_new_start [demoSub] 5 "" 0 "09-2025" "08-2025" demoSub
    ⟨2025, 9⟩ ⟨2025, 8⟩ (by decide) (by decide) (by decide)).mpr (by decide)

/-- C9: with two parseable aggregation dates, Aggregate always succeeds —
no ordering validation is applied between them, and in particular no
date-range error can be returned even when the end month precedes the start
month. -/
theorem aggregate_no_range_validation (db : Store) (sStr eStr : String)
    (u : Option UUID) (v : Option String) (sd ed : Date)
    (hs : parseMonthYear sStr = some sd) (he : parseMonthYear eStr = some ed) :
    ∃ n : Int, serviceAggregate db sStr eStr u v = .ok n ∧
      ∀ err : SvcErr, serviceAggregate db sStr eStr u v ≠ .error err := by
  refine ⟨repoAggregate db (monthStart sd) (monthEnd ed) u v, ?_, ?_⟩
  · unfold serviceAggregate
    simp [hs, he]
  · intro err hcon
    unfold serviceAggregate at hcon
    simp [hs, he] at hcon

/-- C9 witness: the reversed window 10-2025 .. 07-2025 does not produce the
date-range error. -/
theorem aggregate_no_range_validation_witness :
    serviceAggregate demoDb "10-2025" "07-2025" none none ≠
      .error .invalidDateRange := by
  obtain ⟨n, hok, hne⟩ := aggregate_no_range_validation demoDb "10-2025" "07-2025"
    none none ⟨2025, 10⟩ ⟨2025, 7⟩ (by decide) (by decide)
  exact hne .invalidDateRange

lemma serviceCreate_ok (db : Store) (newID : UUID) (svcName : String)
    (price : Int) (uid : UUID) (sStr eStr : String) (sub : Subscription)
    (db2 : Store)
    (h : serviceCreate db newID svcName price uid sStr eStr = .ok (sub, db2)) :
    db2 = db ++ [sub] ∧ invOK sub = true := by
  cases hp : parseMonthYear sStr with
  | none => unfold serviceCreate at h; simp only [hp] at h; cases h
  | some sd =>
    by_cases he : eStr = ""
    · subst he
      rw [serviceCreate_eval_empty db newID svcName price uid sStr sd hp] at h
      injection h with h1
      injection h1 with h2 h3
      subst h3
      exact ⟨by rw [← h2], by rw [← h2]; rfl⟩
    · cases hq : parseMonthYear eStr with
      | none => unfold serviceCreate at h; simp [hp, he, hq] at h
      | some ed =>
        rw [serviceCreate_eval_some db newID svcName price uid sStr eStr sd ed hp hq he] at h
        by_cases hc : dlt (monthStart ed) (monthStart sd) = true
        · rw [if_pos hc] at h; cases h
        · rw [Bool.not_eq_true] at hc
          rw [if_neg (by simp [hc])] at h
          injection h with h1
          injection h1 with h2 h3
          subst h3
          refine ⟨by rw [← h2], ?_⟩
          rw [← h2]
          show dle (monthStart sd) (monthStart ed) = true
          unfold dlt at hc
          unfold dle
          simp only [decide_eq_true_eq, decide_eq_false_iff_not] at *
          omega

/-- C8: starting from any store whose entities all satisfy the date
invariant (end date, when set, not earlier than start date), every
successful Create, every successful Update and every Delete leaves a store
whose entities all still satisfy it. -/
theorem invariant_end_after_start (db : Store) (hdb : ∀ s ∈ db, invOK s = true) :
    (∀ (newID : UUID) (svcName : String) (price : Int) (uid : UUID)
      (sStr eStr : String) (sub : Subscription) (db2 : Store),
      serviceCreate db newID svcName price uid sStr eStr = .ok (sub, db2) →
      ∀ s ∈ db2, invOK s = true) ∧
    (∀ (id : UUID) (svcName : String) (price : Int) (sStr eStr : String)
      (sub : Subscription) (db2 : Store),
      serviceUpdate db id svcName price sStr eStr = .ok (sub, db2) →
      ∀ s ∈ db2, invOK s = true) ∧
    (∀ id : UUID, ∀ s ∈ repoDelete db id, invOK s = true) := by
  refine ⟨?_, ?_, ?_⟩
  · intro newID svcName price uid sStr eStr sub db2 h s hsmem
    obtain ⟨hdb2, hinv⟩ := serviceCreate_ok _ _ _ _ _ _ _ _ _ h
    subst hdb2
    rcases List.mem_append.mp hsmem with hl | hr
    · exact hdb s hl
    · rw [List.mem_singleton.mp hr]
      exact hinv
  · intro id svcName price sStr eStr sub db2 h s hsmem
    obtain ⟨sub0, sub3, hg, hs, hend, hdb2⟩ := serviceUpdate_ok _ _ _ _ _ _ _ _ h
    subst hdb2
    unfold repoUpdate at hsmem
    obtain ⟨a, ha, hfa⟩ := List.mem_map.mp hsmem
    by_cases hid : a.id = sub.id
    · rw [if_pos hid] at hfa
      rw [← hfa]
      exact applyEndDate_invOK _ _ _ hend
    · rw [if_neg hid] at hfa
      rw [← hfa]
      exact hdb a ha
  · intro id s hsmem
    exact hdb s (List.mem_of_mem_filter hsmem)

/-- C8 witness: the invariant holds for the demo entity after a Delete on
an unrelated id. -/
theorem invariant_end_after_start_witness : invOK demoSub = true :=
  (invariant_end_after_start [demoSub] (by decide)).2.2 99 demoSub (by decide)

lemma aggRowMatch_eq (st sp : DateTime) (u : Option UUID) (v : Option String)
    (s : Subscription) :
    aggRowMatch st sp u v s =
      (overlapsWindow st sp s && passesFilters u v s) := by
  unfold aggRowMatch overlapsWindow passesFilters
  cases s.endDate <;> cases u <;> cases v <;> simp [Bool.and_assoc]

/-- C1: for parseable MM-YYYY aggregation dates, Aggregate expands them to
the whole-month window [first of start month 00:00:00, last day of end
month 23:59:59] and returns the sum of price over exactly the stored
subscriptions whose interval overlaps that window, narrowed by the optional
user and service filters; with no matching subscription it returns 0, not
an error. -/
theorem aggregate_window_sum (db : Store) (sStr eStr : String)
    (u : Option UUID) (v : Option String) (sd ed : Date)
    (hs : parseMonthYear sStr = some sd) (he : parseMonthYear eStr = some ed) :
    serviceAggregate db sStr eStr u v =
      .ok ((List.map (fun s => s.price)
        (List.filter (fun s => overlapsWindow (monthStart sd) (monthEnd ed) s &&
          passesFilters u v s) db)).sum) ∧
    ((∀ s ∈ db, (overlapsWindow (monthStart sd) (monthEnd ed) s &&
        passesFilters u v s) = false) →
      serviceAggregate db sStr eStr u v = .ok 0) := by
  have hfil : List.filter (aggRowMatch (monthStart sd) (monthEnd ed) u v) db =
      List.filter (fun s => overlapsWindow (monthStart sd) (monthEnd ed) s &&
        passesFilters u v s) db := by
    apply List.filter_congr
    intro a _
    exact aggRowMatch_eq _ _ _ _ a
  constructor
  · unfold serviceAggregate
    simp only [hs, he]
    unfold repoAggregate
    rw [hfil]
  · intro hnone
    unfold serviceAggregate
    simp only [hs, he]
    unfold repoAggregate
    rw [hfil]
    have hnil : List.filter (fun s => overlapsWindow (monthStart sd) (monthEnd ed) s &&
        passesFilters u v s) db = [] := by
      apply List.filter_eq_nil_iff.mpr
      intro a ha
      simp [hnone a ha]
    rw [hnil]
    rfl

/-- C1 witness: the specification's scenario — Netflix 1000 over
07-2025..10-2025 plus open-ended Spotify 500 from 09-2025 — sums to 1500
over the window 09-2025..09-2025. -/
theorem aggregate_window_sum_witness :
    serviceAggregate demoDb "09-2025" "09-2025" none none = .ok 1500 := by
  rw [(aggregate_window_sum demoDb "09-2025" "09-2025" none none
    ⟨2025, 9⟩ ⟨2025, 9⟩ (by decide) (by decide)).1]
  rfl

/-- C3 counterexample: Update on an absent id produces 400 (every service
error is mapped to 400 at this endpoint), not the 404 the claim states; and
Aggregate with an unparseable date produces 500, not 400. -/
theorem update_absent_maps_400_not_404 :
    (handlerUpdate [] "00000000-0000-0000-0000-000000000000"
      "Netflix" 1000 "07-2025" "10-2025").status = 400 ∧
    (handlerUpdate [] "00000000-0000-0000-0000-000000000000"
      "Netflix" 1000 "07-2025" "10-2025").status ≠ 404 ∧
    (handlerAggregate [] "xx-2025" "07-2025" none none).status = 500 ∧
    (handlerAggregate [] "xx-2025" "07-2025" none none).status ≠ 400 := by
  refine ⟨rfl, by decide, rfl, by decide⟩

/-- C3 amended: the status mapping is endpoint-specific and uniform in the
error value within each endpoint, not keyed on error kind globally: Create
and Update answer 400 for every error the domain returns (validation and
not-found alike); Aggregate answers 500 for every error the domain returns
(including unparseable dates); GetByID answers 404 exactly when the error
is `gorm.ErrRecordNotFound` and 500 for any other error; Delete's gateway
reports no not-found, so Delete answers 204. In particular an Update on an
absent id yields 400, not 404, and an Aggregate with an unparseable date
yields 500, not 400. -/
theorem boundary_status_by_endpoint (db : Store) (idParam : String) (id : UUID)
    (hid : uuidParse idParam = some id) :
    (∀ (newID uid : UUID) (svcName : String) (price : Int) (sStr eStr : String)
      (e : SvcErr), svcName ≠ "" → price > 0 → uid ≠ nilUUID → sStr ≠ "" →
      serviceCreate db newID svcName price uid sStr eStr = .error e →
      (handlerCreate db newID svcName price uid sStr eStr).status = 400) ∧
    (∀ (svcName : String) (price : Int) (sStr eStr : String) (e : SvcErr),
      serviceUpdate db id svcName price sStr eStr = .error e →
      (handlerUpdate db idParam svcName price sStr eStr).status = 400) ∧
    (∀ (aStr a2 : String) (u : Option UUID) (v : Option String) (e : SvcErr),
      aStr ≠ "" → a2 ≠ "" →
      serviceAggregate db aStr a2 u v = .error e →
      (handlerAggregate db aStr a2 u v).status = 500) ∧
    (∀ e : SvcErr, serviceGetByID db id = .error e →
      (handlerGetByID db idParam).status =
        (if e = SvcErr.recordNotFound then 404 else 500)) ∧
    (handlerDelete db idParam).status = 204 := by
  refine ⟨?_, ?_, ?_, ?_, ?_⟩
  · intro newID uid svcName price sStr eStr e hsvc hpr huid hsS herr
    have hnp : ¬ price ≤ 0 := by omega
    simp [handlerCreate, hsvc, hnp, huid, hsS, herr]
  · intro svcName price sStr eStr e herr
    simp [handlerUpdate, hid, herr]
  · intro aStr a2 u v e h1 h2 herr
    simp [handlerAggregate, h1, h2, herr]
  · intro e herr
    by_cases he : e = SvcErr.recordNotFound
    · subst he
      simp [handlerGetByID, hid, herr]
    · simp [handlerGetByID, hid, herr, he]
  · simp [handlerDelete, hid, serviceDelete]

/-- C3 amended witness: each endpoint's mapping at concrete inputs —
Create rejecting a date range with 400, Update on an absent id with 400,
Aggregate with an unparseable start date with 500, GetByID on an absent id
with 404, Delete with 204. -/
theorem boundary_status_by_endpoint_witness :
    (handlerCreate [] 1 "Netflix" 1000 7 "10-2025" "07-2025").status = 400 ∧
    (handlerUpdate [] "00000000-0000-0000-0000-000000000000"
      "X" 5 "" "").status = 400 ∧
    (handlerAggregate [] "xx-2025" "07-2025" (some 7) none).status = 500 ∧
    (handlerGetByID [] "00000000-0000-0000-0000-000000000000").status = 404 ∧
    (handlerDelete [] "00000000-0000-0000-0000-000000000000").status = 204 := by
  obtain ⟨hC, hU, hA, hG, hD⟩ := boundary_status_by_endpoint []
    "00000000-0000-0000-0000-000000000000" nilUUID (by decide)
  refine ⟨hC 1 7 "Netflix" 1000 "10-2025" "07-2025" SvcErr.invalidDateRange
      (by decide) (by decide) (by decide) (by decide) (by decide),
    hU "X" 5 "" "" SvcErr.recordNotFound rfl,
    hA "xx-2025" "07-2025" (some 7) none SvcErr.invalidStartDate
      (by decide) (by decide) rfl, ?_, hD⟩
  have h4 := hG SvcErr.recordNotFound rfl
  simpa using h4

/-- C4 counterexample: Delete on an absent id succeeds silently — the
repository's DELETE of zero rows is no error, the service returns success,
and the boundary answers 204, not the NotFound / 404 the claim states. -/
theorem delete_absent_silent_204 :
    (handlerDelete [] "60601fee-2bf1-4721-ae6f-7636e79a0cba").status = 204 ∧
    (handlerDelete [] "60601fee-2bf1-4721-ae6f-7636e79a0cba").status ≠ 404 ∧
    serviceDelete [] 7 = .ok [] := by
  refine ⟨rfl, by decide, rfl⟩

/-- C4 amended: for every identifier with no matching stored subscription,
Delete succeeds silently — the gateway deletes zero rows without error and
the boundary returns 204; the handler's NotFound branch is unreachable via
this gateway. -/
theorem delete_silent_success (db : Store) (idParam : String) (id : UUID)
    (hid : uuidParse idParam = some id)
    (_habsent : repoGetByID db id = .error .recordNotFound) :
    (handlerDelete db idParam).status = 204 ∧
    serviceDelete db id = .ok (repoDelete db id) := by
  refine ⟨?_, rfl⟩
  simp [handlerDelete, hid, serviceDelete]

/-- C4 amended witness: deleting from an empty store. -/
theorem delete_silent_success_witness :
    (handlerDelete [] "00000000-0000-0000-0000-000000000000").status = 204 ∧
    serviceDelete [] nilUUID = .ok (repoDelete [] nilUUID) :=
  delete_silent_success [] "00000000-0000-0000-0000-000000000000" nilUUID
    (by decide) rfl

/-- C10 counterexample: List with a malformed `user_id` query parameter is
not rejected with 400 — the parse failure is only logged, the request
reaches the domain logic, and the rows are returned with 200. -/
theorem list_malformed_user_id_reaches_domain :
    uuidParse "not-a-uuid" = none ∧
    (handlerList [demoSub] "not-a-uuid" "").status = 200 ∧
    (handlerList [demoSub] "not-a-uuid" "").status ≠ 400 ∧
    (handlerList [demoSub] "not-a-uuid" "").domainInvoked = true ∧
    (handlerList [demoSub] "not-a-uuid" "").body = [demoSub] := by
  refine ⟨rfl, rfl, by decide, rfl, rfl⟩

/-- C10 amended: malformed path ids are rejected with 400 before any
domain operation on GetByID, Update and Delete; but List with a malformed
`user_id` is not rejected — the failed parse leaves the nil UUID, which the
domain treats as the all-users filter, and the request proceeds to 200. -/
theorem path_ids_rejected_list_proceeds (db : Store) (p : String)
    (svcName : String) (price : Int) (sStr eStr sName : String)
    (h : uuidParse p = none) :
    handlerGetByID db p = ⟨400, false, none⟩ ∧
    handlerUpdate db p svcName price sStr eStr = ⟨400, false, none⟩ ∧
    handlerDelete db p = ⟨400, false, db⟩ ∧
    handlerList db p sName = ⟨200, true, serviceList db nilUUID sName⟩ := by
  refine ⟨?_, ?_, ?_, ?_⟩ <;>
    simp [handlerGetByID, handlerUpdate, handlerDelete, handlerList, h]

/-- C10 amended witness: the malformed id "zz" at concrete inputs. -/
theorem path_ids_rejected_list_proceeds_witness :
    handlerGetByID [] "zz" = ⟨400, false, none⟩ ∧
    handlerUpdate [] "zz" "N" 3 "" "" = ⟨400, false, none⟩ ∧
    handlerDelete [] "zz" = ⟨400, false, []⟩ ∧
    handlerList [] "zz" "Spotify" = ⟨200, true, serviceList [] nilUUID "Spotify"⟩ :=
  path_ids_rejected_list_proceeds [] "zz" "N" 3 "" "" "Spotify" (by decide)
